import Mathlib

/-!
Verification of the GitHub PR MCP server (src/main.py and
src/git_hub_pr_fetcher.py) against its natural-language specification.

The Python code is shallowly embedded: JSON values become the inductive
type JVal, a Python expression that may raise becomes a PyResult, and the
network is an explicit environment mapping each GET request description to
an outcome. Library calls that are out of scope for the repository
(the HTTP client itself, base64 and UTF-8 decoding) are part of that
environment; everything the repository itself does is translated
statement by statement from the source.
-/

/-- A JSON-like Python value: None, bool, int, str, list, dict. -/
inductive JVal where
  | null : JVal
  | bool : Bool → JVal
  | num : Int → JVal
  | str : String → JVal
  | arr : List JVal → JVal
  | obj : List (String × JVal) → JVal

/-- Outcome of evaluating a Python expression: a returned value or a
raised exception carrying the text that str(e) would produce. -/
inductive PyResult (α : Type) where
  | ret : α → PyResult α
  | exn : String → PyResult α

/-- Dictionary key access v[k]: raises KeyError when the key is missing
and TypeError when the value is not a dict. (Python renders these
exception texts with quotes around the key; no claim depends on the
exact rendering.) -/
def JVal.item (v : JVal) (k : String) : PyResult JVal :=
  match v with
  | JVal.obj kvs =>
    match List.lookup k kvs with
    | some x => PyResult.ret x
    | none => PyResult.exn ("KeyError: " ++ k)
  | _ => PyResult.exn "TypeError: value is not subscriptable by string"

/-- dict.get(k): returns None-as-absent for a missing key, raises
AttributeError when the receiver is not a dict. -/
def dictGet (v : JVal) (k : String) : PyResult (Option JVal) :=
  match v with
  | JVal.obj kvs => PyResult.ret (List.lookup k kvs)
  | _ => PyResult.exn "AttributeError: object has no attribute get"

/-- Pure lookup of a key in a dict-shaped value, none otherwise.
Used in specifications and theorem statements. -/
def JVal.lookup (v : JVal) (k : String) : Option JVal :=
  match v with
  | JVal.obj kvs => List.lookup k kvs
  | _ => none

/-- Python truthiness of a value. -/
def JVal.truthy : JVal → Bool
  | JVal.null => false
  | JVal.bool b => b
  | JVal.num n => n != 0
  | JVal.str s => s != ""
  | JVal.arr xs => !xs.isEmpty
  | JVal.obj kvs => !kvs.isEmpty

/-- Truthiness of the result of dict.get: an absent value is falsy. -/
def truthyOpt : Option JVal → Bool
  | none => false
  | some v => v.truthy

/-- Python str() rendering of a value, as used when a value is
interpolated into an f-string. Container rendering is simplified to a
placeholder: the program only ever interpolates strings and integers. -/
def JVal.pyStr : JVal → String
  | JVal.null => "None"
  | JVal.bool true => "True"
  | JVal.bool false => "False"
  | JVal.num n => toString n
  | JVal.str s => s
  | JVal.arr _ => "<list>"
  | JVal.obj _ => "<dict>"

/-- str() of an optional value, rendering Python None as "None". -/
def pyStrOptD : Option JVal → String
  | none => "None"
  | some v => v.pyStr

/-- Python list indexing xs[i] with negative-index wrap-around:
raises IndexError exactly when the (possibly wrapped) index is out of
range. -/
def pyIndex (xs : List JVal) (i : Int) : PyResult JVal :=
  let j : Int := if i < 0 then i + xs.length else i
  if 0 ≤ j then
    match xs.get? j.toNat with
    | some x => PyResult.ret x
    | none => PyResult.exn "IndexError: list index out of range"
  else
    PyResult.exn "IndexError: list index out of range"

/-- Python subscripting v[i] with an integer index. -/
def pySubscript (v : JVal) (i : Int) : PyResult JVal :=
  match v with
  | JVal.arr xs => pyIndex xs i
  | _ => PyResult.exn "TypeError: value is not subscriptable by integer"

/-- Python iteration over a value: lists yield elements, dicts yield
their keys, strings yield one-character strings, the rest raise. -/
def toIter : JVal → PyResult (List JVal)
  | JVal.arr xs => PyResult.ret xs
  | JVal.obj kvs => PyResult.ret (kvs.map (fun kv => JVal.str kv.fst))
  | JVal.str s => PyResult.ret (s.data.map (fun c => JVal.str (String.singleton c)))
  | _ => PyResult.exn "TypeError: object is not iterable"

/-- Effectful map over a list, stopping at the first raised exception,
as a Python list comprehension does. -/
def pyMapM (f : JVal → PyResult JVal) : List JVal → PyResult (List JVal)
  | [] => PyResult.ret []
  | x :: xs =>
    match f x with
    | PyResult.exn e => PyResult.exn e
    | PyResult.ret y =>
      match pyMapM f xs with
      | PyResult.exn e => PyResult.exn e
      | PyResult.ret ys => PyResult.ret (y :: ys)

/-- How certificate verification is configured on a GET call:
the library default, verify=False, or verify=certifi.where(). -/
inductive Verify where
  | default : Verify
  | disabled : Verify
  | caBundle : Verify
deriving Repr, DecidableEq

/-- The observable description of one GET call made by the program.
timeout is the timeout argument passed at the call site, none when the
call site passes no timeout argument. -/
structure GetReq where
  url : String
  timeout : Option Nat
  verify : Verify
  params : List (String × String)
deriving Repr, DecidableEq

/-- An HTTP response as the program observes it: status code, reason
phrase, raw text, and the outcome of calling .json() on it. -/
structure HttpResponse where
  status : Nat
  reason : String
  text : String
  body : PyResult JVal

/-- Outcome of performing a GET request: a response, or the client
library raising (DNS failure, timeout, TLS failure, ...). -/
inductive HttpOutcome where
  | resp : HttpResponse → HttpOutcome
  | exn : String → HttpOutcome

/-- The external world the program runs against: the network, whether
the certifi package is importable, and the composed
base64-decode-then-UTF-8-decode library routine applied to a content
value (raising on invalid base64, undecodable bytes, or a non-string
argument). -/
structure Env where
  doGet : GetReq → HttpOutcome
  certifiAvailable : Bool
  b64utf8 : JVal → PyResult String

/-- Message of the HTTPError raised by requests.Response.raise_for_status
for a 4xx or 5xx status. -/
def raiseForStatusMsg (status : Nat) (reason url : String) : String :=
  if status < 500 then
    toString status ++ " Client Error: " ++ reason ++ " for url: " ++ url
  else
    toString status ++ " Server Error: " ++ reason ++ " for url: " ++ url

/-! ## GitHubPRFetcher (src/git_hub_pr_fetcher.py) -/

/-- self.base_url set in GitHubPRFetcher.__init__. -/
def apiBaseUrl : String := "https://api.github.com"

/-- URL built by fetch_pr_details; the PR number is interpolated with
str(). -/
def prDetailUrl (owner repo : String) (prNumber : JVal) : String :=
  apiBaseUrl ++ "/repos/" ++ owner ++ "/" ++ repo ++ "/pulls/" ++ prNumber.pyStr

/-- The request of _fetch_with_default_ssl: requests.get(url,
headers=self.headers, timeout=30). -/
def defaultSslReq (url : String) : GetReq :=
  { url := url, timeout := some 30, verify := Verify.default, params := [] }

/-- The request of _fetch_with_disabled_ssl_verification:
requests.get(url, headers=self.headers, verify=False, timeout=30). -/
def disabledSslReq (url : String) : GetReq :=
  { url := url, timeout := some 30, verify := Verify.disabled, params := [] }

/-- The request of _fetch_with_custom_ssl_context: session.get(url,
verify=False, timeout=30) on the session built by
_create_session_with_ssl_config. -/
def customSslContextReq (url : String) : GetReq :=
  { url := url, timeout := some 30, verify := Verify.disabled, params := [] }

/-- The request of _fetch_with_system_ca_bundle: requests.get(url,
headers=self.headers, verify=certifi.where(), timeout=30). -/
def systemCaBundleReq (url : String) : GetReq :=
  { url := url, timeout := some 30, verify := Verify.caBundle, params := [] }

/-- The success dictionary a strategy returns. -/
def successShape (dataJ : JVal) (method : String) : JVal :=
  JVal.obj [("success", JVal.bool true), ("data", dataJ), ("method", JVal.str method)]

/-- The failure dictionary a strategy returns from its except clause. -/
def failShape (msg : String) : JVal :=
  JVal.obj [("success", JVal.bool false), ("error", JVal.str msg)]

/-- Shared body of the four fetch strategies: GET the request, call
raise_for_status, parse the JSON body; any exception is caught and
turned into a failure dictionary whose message carries the strategy
specific text followed by str(e). -/
def strategyRun (env : Env) (req : GetReq) (failText method : String) : JVal :=
  match env.doGet req with
  | HttpOutcome.exn e => failShape (failText ++ e)
  | HttpOutcome.resp r =>
    if 400 ≤ r.status ∧ r.status < 600 then
      failShape (failText ++ raiseForStatusMsg r.status r.reason req.url)
    else
      match r.body with
      | PyResult.exn e => failShape (failText ++ e)
      | PyResult.ret j => successShape j method

/-- GitHubPRFetcher._fetch_with_default_ssl. -/
def fetchWithDefaultSsl (env : Env) (url : String) : JVal :=
  strategyRun env (defaultSslReq url) "Default SSL failed: " "default_ssl"

/-- GitHubPRFetcher._fetch_with_disabled_ssl_verification. -/
def fetchWithDisabledSslVerification (env : Env) (url : String) : JVal :=
  strategyRun env (disabledSslReq url) "Disabled SSL verification failed: "
    "disabled_ssl_verification"

/-- GitHubPRFetcher._fetch_with_custom_ssl_context. -/
def fetchWithCustomSslContext (env : Env) (url : String) : JVal :=
  strategyRun env (customSslContextReq url) "Custom SSL context failed: "
    "custom_ssl_context"

/-- GitHubPRFetcher._fetch_with_system_ca_bundle: import certifi may
raise ImportError, answered by a distinguishable failure dictionary. -/
def fetchWithSystemCaBundle (env : Env) (url : String) : JVal :=
  if env.certifiAvailable then
    strategyRun env (systemCaBundleReq url) "System CA bundle failed: "
      "system_ca_bundle"
  else
    failShape "certifi package not available"

/-- One iteration of the fallback loop in fetch_pr_details: did this
strategy invocation return a dictionary whose success entry is truthy? -/
def outSuccess : PyResult JVal → Bool
  | PyResult.ret (JVal.obj kvs) => truthyOpt (List.lookup "success" kvs)
  | _ => false

/-- The error text the fallback loop records for a failed strategy
invocation: str(e) for a raised exception, the error entry of a
returned failure dictionary with the Unknown error default (and str(e)
of the AttributeError when the returned value is not a dictionary). -/
def outErr : PyResult JVal → JVal
  | PyResult.exn e => JVal.str e
  | PyResult.ret r =>
    match dictGet r "success" with
    | PyResult.exn e => JVal.str e
    | PyResult.ret _ =>
      match dictGet r "error" with
      | PyResult.exn e => JVal.str e
      | PyResult.ret ev => ev.getD (JVal.str "Unknown error")

/-- The dictionary fetch_pr_details returns when every strategy has
failed, embedding the recorded error of the last attempted strategy. -/
def exhaustResult (e : JVal) : JVal :=
  JVal.obj [("success", JVal.bool false),
    ("error", JVal.str ("All SSL strategies failed. Last error: " ++ e.pyStr)),
    ("data", JVal.null)]

/-- The for-loop of fetch_pr_details over the outcomes of the strategy
invocations, threading last_error (initially None): a raised exception
is caught and recorded, a returned dictionary with truthy success is
returned at once, any other outcome records an error text and moves to
the next strategy; on exhaustion the all-strategies-failed dictionary
is returned. -/
def fetchLoop : List (PyResult JVal) → Option JVal → JVal
  | [], lastErr =>
    JVal.obj [("success", JVal.bool false),
      ("error", JVal.str ("All SSL strategies failed. Last error: " ++ pyStrOptD lastErr)),
      ("data", JVal.null)]
  | out :: rest, _lastErr =>
    match out with
    | PyResult.exn e => fetchLoop rest (some (JVal.str e))
    | PyResult.ret r =>
      match dictGet r "success" with
      | PyResult.exn e => fetchLoop rest (some (JVal.str e))
      | PyResult.ret sv =>
        if truthyOpt sv then r
        else
          match dictGet r "error" with
          | PyResult.exn e => fetchLoop rest (some (JVal.str e))
          | PyResult.ret ev => fetchLoop rest (some (ev.getD (JVal.str "Unknown error")))

/-- Number of strategies the fallback loop invokes: every strategy
before the first successful one is invoked exactly once, the successful
one is invoked, and the loop stops. -/
def fetchInvoked : List (PyResult JVal) → Nat
  | [] => 0
  | out :: rest => if outSuccess out then 1 else 1 + fetchInvoked rest

/-- The strategies list of fetch_pr_details, in source order, each
applied once to the target URL. In the source every strategy is a
Python function that catches its own exceptions, so each invocation
returns a dictionary (PyResult.ret); the loop nevertheless guards each
invocation with try/except, which fetchLoop models for arbitrary
outcomes. -/
def strategyOutcomes (env : Env) (url : String) : List (PyResult JVal) :=
  [PyResult.ret (fetchWithDefaultSsl env url),
   PyResult.ret (fetchWithDisabledSslVerification env url),
   PyResult.ret (fetchWithCustomSslContext env url),
   PyResult.ret (fetchWithSystemCaBundle env url)]

/-- GitHubPRFetcher.fetch_pr_details. -/
def fetch_pr_details (env : Env) (owner repo : String) (prNumber : JVal) : JVal :=
  fetchLoop (strategyOutcomes env (prDetailUrl owner repo prNumber)) none

/-- The request of GitHubPRFetcher.list_pull_requests: requests.get(url,
headers=self.headers, params=params, verify=False, timeout=30). -/
def listPRsReq (owner repo state : String) (perPage : Int) : GetReq :=
  { url := apiBaseUrl ++ "/repos/" ++ owner ++ "/" ++ repo ++ "/pulls",
    timeout := some 30, verify := Verify.disabled,
    params := [("state", state), ("per_page", toString perPage),
               ("sort", "updated"), ("direction", "desc")] }

/-- The failure dictionary of GitHubPRFetcher.list_pull_requests. -/
def listFailResult (msg : String) : JVal :=
  JVal.obj [("success", JVal.bool false),
    ("error", JVal.str ("Failed to list pull requests: " ++ msg)),
    ("data", JVal.null)]

/-- The element projection of the list comprehension in
GitHubPRFetcher.list_pull_requests, with the key accesses performed in
source order. -/
def projectPR7 (pr : JVal) : PyResult JVal :=
  match pr.item "number" with
  | PyResult.exn e => PyResult.exn e
  | PyResult.ret n =>
    match pr.item "title" with
    | PyResult.exn e => PyResult.exn e
    | PyResult.ret t =>
      match pr.item "state" with
      | PyResult.exn e => PyResult.exn e
      | PyResult.ret s =>
        match pr.item "user" with
        | PyResult.exn e => PyResult.exn e
        | PyResult.ret u =>
          match u.item "login" with
          | PyResult.exn e => PyResult.exn e
          | PyResult.ret lg =>
            match pr.item "html_url" with
            | PyResult.exn e => PyResult.exn e
            | PyResult.ret h =>
              match pr.item "created_at" with
              | PyResult.exn e => PyResult.exn e
              | PyResult.ret c =>
                match pr.item "updated_at" with
                | PyResult.exn e => PyResult.exn e
                | PyResult.ret up =>
                  PyResult.ret (JVal.obj
                    [("number", n), ("title", t), ("state", s),
                     ("author", lg), ("url", h),
                     ("created_at", c), ("updated_at", up)])

/-- GitHubPRFetcher.list_pull_requests: one GET, raise_for_status, JSON
parse, comprehension over the parsed body; every exception inside the
try block becomes the failure dictionary. -/
def fetcherListPullRequests (env : Env) (owner repo state : String) (perPage : Int) : JVal :=
  match env.doGet (listPRsReq owner repo state perPage) with
  | HttpOutcome.exn e => listFailResult e
  | HttpOutcome.resp r =>
    if 400 ≤ r.status ∧ r.status < 600 then
      listFailResult (raiseForStatusMsg r.status r.reason (listPRsReq owner repo state perPage).url)
    else
      match r.body with
      | PyResult.exn e => listFailResult e
      | PyResult.ret j =>
        match toIter j with
        | PyResult.exn e => listFailResult e
        | PyResult.ret prs =>
          match pyMapM projectPR7 prs with
          | PyResult.exn e => listFailResult e
          | PyResult.ret ys =>
            JVal.obj [("success", JVal.bool true), ("data", JVal.arr ys)]

/-! ## MCP tool operations (src/main.py) -/

/-- The request of the tool-level list_pull_requests: httpx.get(url)
with no timeout argument passed at the call site. -/
def mainListPRsReq (owner repo : String) : GetReq :=
  { url := "https://api.github.com/repos/" ++ owner ++ "/" ++ repo ++ "/pulls",
    timeout := none, verify := Verify.default, params := [] }

/-- Simplified rendering of the httpx HTTPStatusError text raised by
raise_for_status on a non-2xx response; no claim depends on its exact
form. -/
def httpxStatusErrMsg (status : Nat) (reason url : String) : String :=
  "Status error " ++ toString status ++ " " ++ reason ++ " for url " ++ url

/-- The element projection of the result loop in the tool-level
list_pull_requests, with the key accesses performed in source order. -/
def project5 (pr : JVal) : PyResult JVal :=
  match pr.item "number" with
  | PyResult.exn e => PyResult.exn e
  | PyResult.ret n =>
    match pr.item "title" with
    | PyResult.exn e => PyResult.exn e
    | PyResult.ret t =>
      match pr.item "state" with
      | PyResult.exn e => PyResult.exn e
      | PyResult.ret s =>
        match pr.item "user" with
        | PyResult.exn e => PyResult.exn e
        | PyResult.ret u =>
          match u.item "login" with
          | PyResult.exn e => PyResult.exn e
          | PyResult.ret lg =>
            match pr.item "html_url" with
            | PyResult.exn e => PyResult.exn e
            | PyResult.ret h =>
              PyResult.ret (JVal.obj
                [("number", n), ("title", t), ("state", s),
                 ("author", lg), ("url", h)])

/-- The try-block of the tool-level list_pull_requests: GET,
raise_for_status (httpx raises on any non-2xx status), JSON parse,
projection loop; the value is the Python list result before
json.dumps. -/
def list_pull_requests_value (env : Env) (repo owner : String) : PyResult JVal :=
  match env.doGet (mainListPRsReq owner repo) with
  | HttpOutcome.exn e => PyResult.exn e
  | HttpOutcome.resp r =>
    if 200 ≤ r.status ∧ r.status < 300 then
      match r.body with
      | PyResult.exn e => PyResult.exn e
      | PyResult.ret j =>
        match toIter j with
        | PyResult.exn e => PyResult.exn e
        | PyResult.ret prs =>
          match pyMapM project5 prs with
          | PyResult.exn e => PyResult.exn e
          | PyResult.ret ys => PyResult.ret (JVal.arr ys)
    else
      PyResult.exn (httpxStatusErrMsg r.status r.reason (mainListPRsReq owner repo).url)

/-- JSON string escaping as json.dumps performs it for the characters
the program can produce (backslash, quote, control characters). -/
def jEscapeChar (c : Char) : String :=
  if c = '\\' then "\\\\"
  else if c = '\"' then "\\\""
  else if c = '\n' then "\\n"
  else if c = '\t' then "\\t"
  else if c = '\r' then "\\r"
  else String.singleton c

/-- Escape a whole string for JSON output. -/
def jEscape (s : String) : String :=
  String.join (s.data.map jEscapeChar)

/-- n spaces, the indentation unit of json.dumps(..., indent=2). -/
def indentStr (n : Nat) : String :=
  String.mk (List.replicate n ' ')

mutual

/-- json.dumps(v, indent=2) at a given indentation level: empty
containers print without newlines, non-empty containers put each
element on its own line. -/
def jDump (lvl : Nat) : JVal → String
  | JVal.null => "null"
  | JVal.bool true => "true"
  | JVal.bool false => "false"
  | JVal.num n => toString n
  | JVal.str s => "\"" ++ jEscape s ++ "\""
  | JVal.arr [] => "[]"
  | JVal.arr (x :: xs) =>
    "[\n" ++ jDumpItems (lvl + 2) (x :: xs) ++ "\n" ++ indentStr lvl ++ "]"
  | JVal.obj [] => "\x7b\x7d"
  | JVal.obj (kv :: kvs) =>
    "\x7b\n" ++ jDumpPairs (lvl + 2) (kv :: kvs) ++ "\n" ++ indentStr lvl ++ "\x7d"

/-- Comma-and-newline separated array elements, each indented. -/
def jDumpItems (lvl : Nat) : List JVal → String
  | [] => ""
  | [x] => indentStr lvl ++ jDump lvl x
  | x :: y :: xs =>
    indentStr lvl ++ jDump lvl x ++ ",\n" ++ jDumpItems lvl (y :: xs)

/-- Comma-and-newline separated object entries, each indented. -/
def jDumpPairs (lvl : Nat) : List (String × JVal) → String
  | [] => ""
  | [(k, v)] => indentStr lvl ++ "\"" ++ jEscape k ++ "\": " ++ jDump lvl v
  | (k, v) :: kv :: kvs =>
    indentStr lvl ++ "\"" ++ jEscape k ++ "\": " ++ jDump lvl v ++ ",\n"
      ++ jDumpPairs lvl (kv :: kvs)

end

/-- The tool-level list_pull_requests: json.dumps of the projected list
on success, the Error: string from the except clause otherwise.
(The source parameter order is repo then owner.) -/
def list_pull_requests (env : Env) (repo owner : String) : String :=
  match list_pull_requests_value env repo owner with
  | PyResult.ret v => jDump 0 v
  | PyResult.exn e => "Error: " ++ e

/-- The tail of get_specified_pr after the index lookup has resolved a
PR number: fetch details via the coordinator and shape the combined
result; dat is the data entry of the listing, bound earlier. -/
def gspDetailsStep (env : Env) (owner repo : String) (dat numv : JVal) : PyResult JVal :=
  let details := fetch_pr_details env owner repo numv
  match details.item "success" with
  | PyResult.exn e => PyResult.exn e
  | PyResult.ret dsucc =>
    if dsucc.truthy then
      match details.item "data" with
      | PyResult.exn e => PyResult.exn e
      | PyResult.ret d =>
        match details.item "method" with
        | PyResult.exn e => PyResult.exn e
        | PyResult.ret m =>
          PyResult.ret (JVal.obj
            [("success", JVal.bool true), ("latest_pr", d),
             ("method_used", m), ("all_prs", dat)])
    else
      PyResult.ret details

/-- The body of get_specified_pr applied to the already-computed
listing dictionary: the early return on a falsy success or falsy data
entry (with the short-circuit evaluation of the or), then the 1-based
index lookup, number resolution, and detail fetch. There is no
try/except around this body in the source, so every raised exception
propagates (PyResult.exn). -/
def gspWithList (env : Env) (owner repo : String) (prNumber : Int) (prList : JVal) : PyResult JVal :=
  match prList.item "success" with
  | PyResult.exn e => PyResult.exn e
  | PyResult.ret succ =>
    if succ.truthy = false then PyResult.ret prList
    else
      match prList.item "data" with
      | PyResult.exn e => PyResult.exn e
      | PyResult.ret dat =>
        if dat.truthy = false then PyResult.ret prList
        else
          match pySubscript dat (prNumber - 1) with
          | PyResult.exn e => PyResult.exn e
          | PyResult.ret entry =>
            match entry.item "number" with
            | PyResult.exn e => PyResult.exn e
            | PyResult.ret numv => gspDetailsStep env owner repo dat numv

/-- The tool-level get_specified_pr: lists open PRs through the fetcher
(state open, per_page 30 are the fetcher defaults) and runs the body on
the listing. -/
def get_specified_pr (env : Env) (owner repo : String) (prNumber : Int) : PyResult JVal :=
  gspWithList env owner repo prNumber (fetcherListPullRequests env owner repo "open" 30)

/-- The request of get_repository_issues: requests.get(url,
params=params, timeout=10) with per_page capped at 100. -/
def issuesReq (owner repo state : String) (perPage : Int) : GetReq :=
  { url := "https://api.github.com/repos/" ++ owner ++ "/" ++ repo ++ "/issues",
    timeout := some 10, verify := Verify.default,
    params := [("state", state), ("per_page", toString (min perPage 100))] }

/-- The tool-level get_repository_issues: one GET, raise_for_status,
raw JSON body on success; every requests exception (transport, HTTP
status, JSON decode) becomes the error dictionary. -/
def get_repository_issues (env : Env) (owner repo state : String) (perPage : Int) : JVal :=
  match env.doGet (issuesReq owner repo state perPage) with
  | HttpOutcome.exn e => JVal.obj [("error", JVal.str ("Failed to fetch issues: " ++ e))]
  | HttpOutcome.resp r =>
    if 400 ≤ r.status ∧ r.status < 600 then
      JVal.obj [("error", JVal.str ("Failed to fetch issues: "
        ++ raiseForStatusMsg r.status r.reason (issuesReq owner repo state perPage).url))]
    else
      match r.body with
      | PyResult.exn e => JVal.obj [("error", JVal.str ("Failed to fetch issues: " ++ e))]
      | PyResult.ret j => j

/-- The candidate filenames of get_repository_readme, in source order. -/
def readmeFilenames : List String :=
  ["README.md", "README.rst", "README.txt", "README"]

/-- The request of get_repository_readme for one candidate filename:
requests.get(url, timeout=10) against the raw-content host. -/
def readmeReq (owner repo branch filename : String) : GetReq :=
  { url := "https://raw.githubusercontent.com/" ++ owner ++ "/" ++ repo
      ++ "/" ++ branch ++ "/" ++ filename,
    timeout := some 10, verify := Verify.default, params := [] }

/-- The filename loop of get_repository_readme: return the text of the
first response with status 200; a requests exception is swallowed and
the next filename is tried; falling off the loop returns None. -/
def readmeSearch (env : Env) (owner repo branch : String) : List String → Option String
  | [] => none
  | f :: fs =>
    match env.doGet (readmeReq owner repo branch f) with
    | HttpOutcome.exn _ => readmeSearch env owner repo branch fs
    | HttpOutcome.resp r =>
      if r.status = 200 then some r.text else readmeSearch env owner repo branch fs

/-- Number of GET calls the readme loop performs before returning. -/
def readmeFetchCount (env : Env) (owner repo branch : String) : List String → Nat
  | [] => 0
  | f :: fs =>
    match env.doGet (readmeReq owner repo branch f) with
    | HttpOutcome.exn _ => 1 + readmeFetchCount env owner repo branch fs
    | HttpOutcome.resp r =>
      if r.status = 200 then 1 else 1 + readmeFetchCount env owner repo branch fs

/-- The tool-level get_repository_readme. -/
def get_repository_readme (env : Env) (owner repo branch : String) : Option String :=
  readmeSearch env owner repo branch readmeFilenames

/-- The request of get_repository_file: requests.get(url,
params=params, timeout=10) against the contents endpoint with the
branch as the ref query parameter. -/
def fileReq (owner repo filePath branch : String) : GetReq :=
  { url := "https://api.github.com/repos/" ++ owner ++ "/" ++ repo
      ++ "/contents/" ++ filePath,
    timeout := some 10, verify := Verify.default, params := [("ref", branch)] }

/-- The encoding guard of get_repository_file: Python equality of the
dict.get result for the encoding key with the base64 literal, false for
an absent key or any non-string value. -/
def isBase64Enc : Option JVal → Bool
  | some (JVal.str s) => s = "base64"
  | _ => false

/-- The tool-level get_repository_file: one GET; on a 200 response
whose JSON body reports base64 encoding, base64-decode the content
entry and decode it as UTF-8; every exception inside the try block
(transport, JSON parse, attribute or key access, decoding) is caught
and None is returned, as it is for a non-200 status or a non-base64
encoding. -/
def get_repository_file (env : Env) (owner repo filePath branch : String) : Option String :=
  match env.doGet (fileReq owner repo filePath branch) with
  | HttpOutcome.exn _ => none
  | HttpOutcome.resp r =>
    if r.status = 200 then
      match r.body with
      | PyResult.exn _ => none
      | PyResult.ret d =>
        match dictGet d "encoding" with
        | PyResult.exn _ => none
        | PyResult.ret encOpt =>
          if isBase64Enc encOpt then
            match d.item "content" with
            | PyResult.exn _ => none
            | PyResult.ret content =>
              match env.b64utf8 content with
              | PyResult.exn _ => none
              | PyResult.ret t => some t
          else none
    else none

/-! ## Structural lemmas -/

theorem outSuccess_ret (r : JVal) :
    outSuccess (PyResult.ret r) = truthyOpt (r.lookup "success") := by
  cases r <;> rfl

theorem item_of_lookup (v : JVal) (k : String) (x : JVal)
    (h : v.lookup k = some x) : v.item k = PyResult.ret x := by
  cases v <;> simp only [JVal.lookup] at h <;> try exact absurd h (by simp)
  simp only [JVal.item, h]

theorem fetchLoop_cons_fail (out : PyResult JVal) (rest : List (PyResult JVal))
    (le : Option JVal) (h : outSuccess out = false) :
    fetchLoop (out :: rest) le = fetchLoop rest (some (outErr out)) := by
  cases out with
  | exn e => rfl
  | ret r =>
    cases r with
    | obj kvs =>
      simp only [outSuccess] at h
      simp [fetchLoop, dictGet, outErr, h]
    | null => rfl
    | bool b => rfl
    | num n => rfl
    | str s => rfl
    | arr xs => rfl

theorem fetchLoop_cons_success (r : JVal) (rest : List (PyResult JVal))
    (le : Option JVal) (h : outSuccess (PyResult.ret r) = true) :
    fetchLoop (PyResult.ret r :: rest) le = r := by
  cases r with
  | obj kvs =>
    simp only [outSuccess] at h
    simp only [fetchLoop, dictGet, h, if_true]
  | null => exact absurd h (by simp [outSuccess])
  | bool b => exact absurd h (by simp [outSuccess])
  | num n => exact absurd h (by simp [outSuccess])
  | str s => exact absurd h (by simp [outSuccess])
  | arr xs => exact absurd h (by simp [outSuccess])

theorem fetchLoop_first (outs : List (PyResult JVal)) (k : Nat) (r : JVal)
    (le : Option JVal)
    (hk : outs.get? k = some (PyResult.ret r))
    (hs : truthyOpt (r.lookup "success") = true)
    (hp : ∀ j, j < k → ∀ o, outs.get? j = some o → outSuccess o = false) :
    fetchLoop outs le = r ∧ fetchInvoked outs = k + 1 := by
  induction outs generalizing k le with
  | nil => simp at hk
  | cons a as ih =>
    cases k with
    | zero =>
      simp only [List.get?_cons_zero] at hk
      injection hk with hk2
      subst hk2
      have hsa : outSuccess (PyResult.ret r) = true := by
        rw [outSuccess_ret]; exact hs
      refine ⟨fetchLoop_cons_success r as le hsa, ?_⟩
      simp [fetchInvoked, hsa]
    | succ k2 =>
      have ha : outSuccess a = false :=
        hp 0 (Nat.succ_pos k2) a (by simp)
      rw [fetchLoop_cons_fail a as le ha]
      simp only [List.get?_cons_succ] at hk
      have hp2 : ∀ j, j < k2 → ∀ o, as.get? j = some o → outSuccess o = false := by
        intro j hj o ho
        exact hp (j + 1) (Nat.succ_lt_succ hj) o (by simpa using ho)
      obtain ⟨h1, h2⟩ := ih k2 (some (outErr a)) hk hp2
      refine ⟨h1, ?_⟩
      simp [fetchInvoked, ha, h2]
      omega

theorem fetchLoop_exhaust (outs : List (PyResult JVal)) (lst : PyResult JVal)
    (le : Option JVal)
    (h : ∀ o ∈ outs, outSuccess o = false) (hl : outSuccess lst = false) :
    fetchLoop (outs ++ [lst]) le = exhaustResult (outErr lst) := by
  induction outs generalizing le with
  | nil =>
    rw [List.nil_append, fetchLoop_cons_fail lst [] le hl]
    rfl
  | cons a as ih =>
    rw [List.cons_append, fetchLoop_cons_fail a _ le (h a (List.mem_cons_self a _))]
    exact ih _ (fun o ho => h o (List.mem_cons_of_mem a ho))

/-- Well-formedness every dictionary produced by a strategy or by the
coordinator satisfies: it has a success entry, and when that entry is
truthy it also has data and method entries. -/
def detailShape (r : JVal) : Prop :=
  (∃ sv, r.lookup "success" = some sv) ∧
  (truthyOpt (r.lookup "success") = true →
    (∃ d, r.lookup "data" = some d) ∧ ∃ m, r.lookup "method" = some m)

theorem failShape_shape (msg : String) : detailShape (failShape msg) := by
  refine ⟨⟨JVal.bool false, rfl⟩, ?_⟩
  intro h
  simp [failShape, JVal.lookup, truthyOpt, JVal.truthy, List.lookup] at h

theorem successShape_shape (dataJ : JVal) (m : String) :
    detailShape (successShape dataJ m) :=
  ⟨⟨JVal.bool true, rfl⟩, fun _ => ⟨⟨dataJ, rfl⟩, JVal.str m, rfl⟩⟩


theorem strategyRun_shape (env : Env) (req : GetReq) (ft m : String) :
    detailShape (strategyRun env req ft m) := by
  unfold strategyRun
  split
  · exact failShape_shape _
  · split
    · exact failShape_shape _
    · split
      · exact failShape_shape _
      · exact successShape_shape _ _

theorem systemCaBundle_shape (env : Env) (url : String) :
    detailShape (fetchWithSystemCaBundle env url) := by
  unfold fetchWithSystemCaBundle
  by_cases h : env.certifiAvailable = true
  · rw [if_pos h]; exact strategyRun_shape _ _ _ _
  · rw [if_neg h]; exact failShape_shape _

theorem fetchLoop_shape (outs : List (PyResult JVal)) (le : Option JVal)
    (h : ∀ r, PyResult.ret r ∈ outs → detailShape r) :
    detailShape (fetchLoop outs le) := by
  induction outs generalizing le with
  | nil =>
    refine ⟨⟨JVal.bool false, rfl⟩, ?_⟩
    intro hx
    simp [fetchLoop, JVal.lookup, truthyOpt, JVal.truthy, List.lookup] at hx
  | cons a as ih =>
    cases ha : outSuccess a with
    | true =>
      cases a with
      | exn e => simp [outSuccess] at ha
      | ret r =>
        rw [fetchLoop_cons_success r as le ha]
        exact h r (List.mem_cons_self _ _)
    | false =>
      rw [fetchLoop_cons_fail a as le ha]
      exact ih _ (fun r hr => h r (List.mem_cons_of_mem a hr))

theorem fetch_pr_details_shape (env : Env) (owner repo : String) (numv : JVal) :
    detailShape (fetch_pr_details env owner repo numv) := by
  unfold fetch_pr_details
  apply fetchLoop_shape
  intro r hr
  simp only [strategyOutcomes, List.mem_cons, List.not_mem_nil, or_false] at hr
  rcases hr with h1 | h2 | h3 | h4
  · injection h1 with hv; subst hv; exact strategyRun_shape _ _ _ _
  · injection h2 with hv; subst hv; exact strategyRun_shape _ _ _ _
  · injection h3 with hv; subst hv; exact strategyRun_shape _ _ _ _
  · injection h4 with hv; subst hv; exact systemCaBundle_shape _ _

theorem pyMapM_ret_mem (f : JVal → PyResult JVal) (xs ys : List JVal)
    (h : pyMapM f xs = PyResult.ret ys) :
    ∀ y ∈ ys, ∃ x, x ∈ xs ∧ f x = PyResult.ret y := by
  induction xs generalizing ys with
  | nil =>
    simp only [pyMapM] at h
    injection h with h2
    subst h2
    intro y hy
    simp at hy
  | cons x xs ih =>
    simp only [pyMapM] at h
    cases hfx : f x with
    | exn e => rw [hfx] at h; exact PyResult.noConfusion h
    | ret y0 =>
      rw [hfx] at h
      cases hrest : pyMapM f xs with
      | exn e => rw [hrest] at h; exact PyResult.noConfusion h
      | ret ys0 =>
        rw [hrest] at h
        injection h with h2
        subst h2
        intro y hy
        rcases List.mem_cons.mp hy with h3 | h3
        · subst h3; exact ⟨x, List.mem_cons_self _ _, hfx⟩
        · obtain ⟨x2, hx2, hfx2⟩ := ih ys0 hrest y h3
          exact ⟨x2, List.mem_cons_of_mem x hx2, hfx2⟩

theorem projectPR7_number (pr y : JVal) (h : projectPR7 pr = PyResult.ret y) :
    ∃ n, y.lookup "number" = some n := by
  unfold projectPR7 at h
  iterate 8 (all_goals try split at h)
  all_goals first
    | exact PyResult.noConfusion h
    | (injection h with h2; subst h2; exact ⟨_, rfl⟩)

theorem fetcherList_shape (env : Env) (owner repo state : String) (perPage : Int) :
    (∃ msg, fetcherListPullRequests env owner repo state perPage = listFailResult msg) ∨
    (∃ ys, fetcherListPullRequests env owner repo state perPage
        = JVal.obj [("success", JVal.bool true), ("data", JVal.arr ys)] ∧
      ∀ y ∈ ys, ∃ n, y.lookup "number" = some n) := by
  unfold fetcherListPullRequests
  split
  · exact Or.inl ⟨_, rfl⟩
  · split
    · exact Or.inl ⟨_, rfl⟩
    · split
      · exact Or.inl ⟨_, rfl⟩
      · split
        · exact Or.inl ⟨_, rfl⟩
        · split
          · exact Or.inl ⟨_, rfl⟩
          · rename_i prs ys hm
            refine Or.inr ⟨ys, rfl, ?_⟩
            intro y hy
            obtain ⟨x, _, hfx⟩ := pyMapM_ret_mem _ _ _ hm y hy
            exact projectPR7_number x y hfx

theorem gspDetailsStep_ret (env : Env) (owner repo : String) (dat numv : JVal) :
    ∃ v, gspDetailsStep env owner repo dat numv = PyResult.ret v := by
  obtain ⟨⟨sv, hsv⟩, hgood⟩ := fetch_pr_details_shape env owner repo numv
  have hsi := item_of_lookup _ _ _ hsv
  simp only [gspDetailsStep, hsi]
  by_cases ht : sv.truthy = true
  · have htv : truthyOpt ((fetch_pr_details env owner repo numv).lookup "success") = true := by
      rw [hsv]; exact ht
    obtain ⟨⟨d, hd⟩, m, hm⟩ := hgood htv
    have hdi := item_of_lookup _ _ _ hd
    have hmi := item_of_lookup _ _ _ hm
    simp only [hdi, hmi, ht, if_true]
    exact ⟨_, rfl⟩
  · simp only [if_neg ht]
    exact ⟨_, rfl⟩

theorem pyIndex_cases (xs : List JVal) (i : Int) :
    (∃ x, pyIndex xs i = PyResult.ret x ∧ x ∈ xs) ∨
    pyIndex xs i = PyResult.exn "IndexError: list index out of range" := by
  simp only [pyIndex]
  by_cases h0 : 0 ≤ if i < 0 then i + (xs.length : Int) else i
  · rw [if_pos h0]
    cases hx : xs.get? (if i < 0 then i + (xs.length : Int) else i).toNat with
    | some x => exact Or.inl ⟨x, rfl, List.get?_mem hx⟩
    | none => exact Or.inr rfl
  · rw [if_neg h0]
    exact Or.inr rfl

theorem gspWithList_success (env : Env) (owner repo : String) (n : Int) (ys : List JVal) :
    gspWithList env owner repo n
      (JVal.obj [("success", JVal.bool true), ("data", JVal.arr ys)])
    = if ys.isEmpty then
        PyResult.ret (JVal.obj [("success", JVal.bool true), ("data", JVal.arr ys)])
      else
        match pySubscript (JVal.arr ys) (n - 1) with
        | PyResult.exn e => PyResult.exn e
        | PyResult.ret entry =>
          match entry.item "number" with
          | PyResult.exn e => PyResult.exn e
          | PyResult.ret numv => gspDetailsStep env owner repo (JVal.arr ys) numv := by
  cases ys with
  | nil => rfl
  | cons y ys2 => rfl

theorem pyMapM_map (f : JVal → PyResult JVal) (g : JVal → JVal) (xs : List JVal)
    (h : ∀ x ∈ xs, f x = PyResult.ret (g x)) :
    pyMapM f xs = PyResult.ret (xs.map g) := by
  induction xs with
  | nil => rfl
  | cons x xs ih =>
    simp only [pyMapM, h x (List.mem_cons_self _ _),
      ih (fun y hy => h y (List.mem_cons_of_mem x hy)), List.map]

/-- The fields the tool-level projection reads from one pull-request
object of the listing response. -/
def hasPRFields (pr : JVal) : Prop :=
  (∃ x, pr.lookup "number" = some x) ∧ (∃ x, pr.lookup "title" = some x) ∧
  (∃ x, pr.lookup "state" = some x) ∧
  (∃ u, pr.lookup "user" = some u ∧ ∃ lg, u.lookup "login" = some lg) ∧
  (∃ x, pr.lookup "html_url" = some x)

/-- Spec-side description of the five-field summary of section 6 of the
specification: exactly the fields number, title, state, author, url,
projected from the corresponding entries of the remote pull-request
object. Stated from the specification text, to be compared with the
source-derived projection. -/
def specProjectPR5 (pr : JVal) : JVal :=
  JVal.obj [("number", (pr.lookup "number").getD JVal.null),
            ("title", (pr.lookup "title").getD JVal.null),
            ("state", (pr.lookup "state").getD JVal.null),
            ("author", (((pr.lookup "user").getD JVal.null).lookup "login").getD JVal.null),
            ("url", (pr.lookup "html_url").getD JVal.null)]

theorem project5_spec (pr : JVal) (h : hasPRFields pr) :
    project5 pr = PyResult.ret (specProjectPR5 pr) := by
  obtain ⟨⟨n, hn⟩, ⟨t, ht⟩, ⟨s, hs⟩, ⟨u, hu, lg, hl⟩, ⟨hh, hhu⟩⟩ := h
  simp only [project5, item_of_lookup _ _ _ hn, item_of_lookup _ _ _ ht,
    item_of_lookup _ _ _ hs, item_of_lookup _ _ _ hu, item_of_lookup _ _ _ hl,
    item_of_lookup _ _ _ hhu, specProjectPR5, hn, ht, hs, hu, hl, hhu,
    Option.getD_some]

/-! ## Concrete environments for witnesses and counterexamples -/

/-- A pull-request object as the listing endpoint returns it, with all
fields the projections read. -/
def prObj1 : JVal :=
  JVal.obj [("number", JVal.num 101), ("title", JVal.str "t"), ("state", JVal.str "open"),
            ("user", JVal.obj [("login", JVal.str "alice")]), ("html_url", JVal.str "u"),
            ("created_at", JVal.str "c"), ("updated_at", JVal.str "d")]

/-- An environment whose every GET answers 200 with a one-element
pull-request array. -/
def envOneOpenPR : Env :=
  { doGet := fun _ => HttpOutcome.resp
      { status := 200, reason := "OK", text := "",
        body := PyResult.ret (JVal.arr [prObj1]) },
    certifiAvailable := true,
    b64utf8 := fun _ => PyResult.exn "binascii" }

/-- An environment whose every GET answers 200 with an empty array:
a repository with zero open pull requests. -/
def envNoOpenPR : Env :=
  { doGet := fun _ => HttpOutcome.resp
      { status := 200, reason := "OK", text := "",
        body := PyResult.ret (JVal.arr []) },
    certifiAvailable := true,
    b64utf8 := fun _ => PyResult.exn "binascii" }

/-- An environment whose every GET raises at transport level. -/
def envAllFail : Env :=
  { doGet := fun _ => HttpOutcome.exn "boom",
    certifiAvailable := true,
    b64utf8 := fun _ => PyResult.exn "binascii" }

/-- An environment where default-verification GETs raise and the other
configurations answer 200: the first strategy fails, the second
succeeds. -/
def envStrat2 : Env :=
  { doGet := fun req =>
      match req.verify with
      | Verify.default => HttpOutcome.exn "boom"
      | _ => HttpOutcome.resp
          { status := 200, reason := "OK", text := "",
            body := PyResult.ret (JVal.obj [("id", JVal.num 7)]) },
    certifiAvailable := true,
    b64utf8 := fun _ => PyResult.exn "binascii" }

/-! ## Claim C1 -/

/-- C1 counterexample: the claim says every operation converts every
failure into a structured result for every input, in particular
get_specified_pr for a pr_number outside the range of the fetched
listing. In an environment whose listing succeeds with exactly one
open PR, pr_number = 5 makes get_specified_pr raise an IndexError that
propagates to the invoking host instead of returning a value. -/
theorem c1_counterexample :
    get_specified_pr envOneOpenPR "octocat" "Hello-World" 5
      = PyResult.exn "IndexError: list index out of range" := rfl

/-- C1 (amended): list_pull_requests, get_repository_issues,
get_repository_readme and get_repository_file catch all failures local
to their call (they are embedded as total functions into String, JVal
and Option String respectively), but get_specified_pr has no such
guard: for every environment and input it either returns a structured
result value or raises exactly the IndexError of an out-of-range index
into the fetched listing. -/
theorem c1_no_unhandled_fault_except_index (env : Env) (owner repo : String) (n : Int) :
    (∃ v, get_specified_pr env owner repo n = PyResult.ret v) ∨
    get_specified_pr env owner repo n
      = PyResult.exn "IndexError: list index out of range" := by
  unfold get_specified_pr
  rcases fetcherList_shape env owner repo "open" 30 with ⟨msg, hf⟩ | ⟨ys, hf, hys⟩
  · rw [hf]; exact Or.inl ⟨_, rfl⟩
  · rw [hf, gspWithList_success]
    by_cases he : ys.isEmpty = true
    · rw [if_pos he]; exact Or.inl ⟨_, rfl⟩
    · rw [if_neg he]
      have hps : pySubscript (JVal.arr ys) (n - 1) = pyIndex ys (n - 1) := rfl
      rw [hps]
      rcases pyIndex_cases ys (n - 1) with ⟨x, hx, hmem⟩ | hix
      · simp only [hx]
        obtain ⟨nm, hnm⟩ := hys x hmem
        simp only [item_of_lookup _ _ _ hnm]
        exact Or.inl (gspDetailsStep_ret env owner repo (JVal.arr ys) nm)
      · rw [hix]
        exact Or.inr rfl

/-! ## Claim C2 -/

/-- C2: the fallback coordinator tries the four strategies in the fixed
order default-SSL, disabled-verification, custom-context,
system-CA-bundle (the order of strategyOutcomes); whenever strategy k
is the first whose invocation yields a dictionary with truthy success,
every strategy before k was invoked exactly once, the result of
strategy k is returned unchanged, and no later strategy is invoked
(the loop performs exactly k + 1 invocations). -/
theorem c2_first_success (env : Env) (owner repo : String) (num : JVal) (k : Nat) (r : JVal)
    (hk : (strategyOutcomes env (prDetailUrl owner repo num)).get? k
      = some (PyResult.ret r))
    (hs : truthyOpt (r.lookup "success") = true)
    (hp : ∀ j, j < k → ∀ o,
      (strategyOutcomes env (prDetailUrl owner repo num)).get? j = some o →
      outSuccess o = false) :
    fetch_pr_details env owner repo num = r ∧
    fetchInvoked (strategyOutcomes env (prDetailUrl owner repo num)) = k + 1 := by
  unfold fetch_pr_details
  exact fetchLoop_first _ k r none hk hs hp

/-- Witness for C2: a concrete environment where the default-SSL
strategy raises at transport level and the disabled-verification
strategy succeeds; the coordinator returns the second strategy result
after exactly two invocations. -/
theorem c2_first_success_witness :
    fetch_pr_details envStrat2 "octocat" "Hello-World" (JVal.num 1)
      = successShape (JVal.obj [("id", JVal.num 7)]) "disabled_ssl_verification" ∧
    fetchInvoked (strategyOutcomes envStrat2
      (prDetailUrl "octocat" "Hello-World" (JVal.num 1))) = 2 :=
  c2_first_success envStrat2 "octocat" "Hello-World" (JVal.num 1) 1
    (successShape (JVal.obj [("id", JVal.num 7)]) "disabled_ssl_verification")
    rfl rfl
    (by
      intro j hj o ho
      have hj0 : j = 0 := by omega
      subst hj0
      simp only [strategyOutcomes, List.get?_cons_zero] at ho
      injection ho with ho2
      subst ho2
      rfl)

/-! ## Claim C3 -/

/-- C3: when every strategy invocation fails, whether by returning a
failure dictionary or by raising (the loop catches the exception,
records it and moves to the next strategy, as the first conjunct states
for arbitrary outcome sequences), the coordinator returns the failure
dictionary whose message embeds the recorded error text of the last
attempted strategy behind the all-strategies-exhausted text; the
second conjunct instantiates this to fetch_pr_details, whose last
strategy is the system-CA-bundle one. -/
theorem c3_exhaust_last_error :
    (∀ (outs : List (PyResult JVal)) (lst : PyResult JVal),
      (∀ o ∈ outs, outSuccess o = false) → outSuccess lst = false →
      fetchLoop (outs ++ [lst]) none = exhaustResult (outErr lst)) ∧
    ∀ (env : Env) (owner repo : String) (num : JVal),
      (∀ o ∈ strategyOutcomes env (prDetailUrl owner repo num), outSuccess o = false) →
      fetch_pr_details env owner repo num
        = exhaustResult (outErr (PyResult.ret
            (fetchWithSystemCaBundle env (prDetailUrl owner repo num)))) := by
  constructor
  · intro outs lst h hl
    exact fetchLoop_exhaust outs lst none h hl
  · intro env owner repo num hall
    unfold fetch_pr_details
    have hd : strategyOutcomes env (prDetailUrl owner repo num)
        = [PyResult.ret (fetchWithDefaultSsl env (prDetailUrl owner repo num)),
           PyResult.ret (fetchWithDisabledSslVerification env (prDetailUrl owner repo num)),
           PyResult.ret (fetchWithCustomSslContext env (prDetailUrl owner repo num))]
          ++ [PyResult.ret (fetchWithSystemCaBundle env (prDetailUrl owner repo num))] := rfl
    rw [hd]
    apply fetchLoop_exhaust
    · intro o ho
      apply hall
      simp only [List.mem_cons, List.not_mem_nil, or_false] at ho
      simp only [strategyOutcomes, List.mem_cons, List.not_mem_nil, or_false]
      tauto
    · apply hall
      simp [strategyOutcomes]

/-- Witness for C3: in an environment where every GET raises, all four
strategies fail and the coordinator reports the system-CA-bundle
error, the last one recorded, behind the exhausted-strategies text. -/
theorem c3_exhaust_witness :
    fetch_pr_details envAllFail "octocat" "Hello-World" (JVal.num 1)
      = exhaustResult (JVal.str "System CA bundle failed: boom") :=
  c3_exhaust_last_error.2 envAllFail "octocat" "Hello-World" (JVal.num 1)
    (by
      intro o ho
      simp only [strategyOutcomes, List.mem_cons, List.not_mem_nil, or_false] at ho
      rcases ho with h | h | h | h <;> subst h <;> rfl)

/-! ## Claim C4 -/

theorem pyIndex_nil (i : Int) :
    pyIndex [] i = PyResult.exn "IndexError: list index out of range" := by
  simp only [pyIndex]
  by_cases h0 : 0 ≤ if i < 0 then i + ((List.length ([] : List JVal)) : Int) else i
  · rw [if_pos h0]; rfl
  · rw [if_neg h0]

/-- C4 counterexample: the claim says that when the listing is empty
get_specified_pr returns the listing failure result unchanged. In an
environment whose listing succeeds with zero open PRs the operation
does return the listing result unchanged, but that result is
success-shaped (its success entry is truthy), not a failure result. -/
theorem c4_counterexample :
    get_specified_pr envNoOpenPR "octocat" "Hello-World" 1
      = PyResult.ret (JVal.obj [("success", JVal.bool true), ("data", JVal.arr [])]) ∧
    truthyOpt ((JVal.obj [("success", JVal.bool true),
      ("data", JVal.arr [])]).lookup "success") = true :=
  ⟨rfl, rfl⟩

/-- C4 (amended): get_specified_pr interprets pr_number through the
index pr_number - 1 into the fetched open-PR listing. If the listing
call fails, or succeeds with an empty listing, the listing result is
returned unchanged (the failure dictionary in the first case, the
success-shaped empty dictionary in the second). Otherwise, an
out-of-range index makes the lookup fail with an IndexError, and an
in-range index resolves the indexed entry, fetches its details via the
coordinator, and returns the detail payload together with the
successful strategy name and the full listing when the coordinator
succeeds, or the coordinator failure unchanged when it fails. -/
theorem c4_index_semantics (env : Env) (owner repo : String) (n : Int) :
    (∀ sv, (fetcherListPullRequests env owner repo "open" 30).lookup "success" = some sv →
      sv.truthy = false →
      get_specified_pr env owner repo n
        = PyResult.ret (fetcherListPullRequests env owner repo "open" 30)) ∧
    (∀ ys, fetcherListPullRequests env owner repo "open" 30
        = JVal.obj [("success", JVal.bool true), ("data", JVal.arr ys)] →
      (ys = [] → get_specified_pr env owner repo n
        = PyResult.ret (fetcherListPullRequests env owner repo "open" 30)) ∧
      (∀ e, ys ≠ [] → pyIndex ys (n - 1) = PyResult.exn e →
        get_specified_pr env owner repo n = PyResult.exn e) ∧
      (∀ entry numv, pyIndex ys (n - 1) = PyResult.ret entry →
        entry.lookup "number" = some numv →
        get_specified_pr env owner repo n
          = gspDetailsStep env owner repo (JVal.arr ys) numv)) ∧
    (∀ dat numv d m,
      (fetch_pr_details env owner repo numv).lookup "success" = some (JVal.bool true) →
      (fetch_pr_details env owner repo numv).lookup "data" = some d →
      (fetch_pr_details env owner repo numv).lookup "method" = some m →
      gspDetailsStep env owner repo dat numv
        = PyResult.ret (JVal.obj [("success", JVal.bool true), ("latest_pr", d),
            ("method_used", m), ("all_prs", dat)])) ∧
    (∀ dat numv sv,
      (fetch_pr_details env owner repo numv).lookup "success" = some sv →
      sv.truthy = false →
      gspDetailsStep env owner repo dat numv
        = PyResult.ret (fetch_pr_details env owner repo numv)) := by
  refine ⟨?_, ?_, ?_, ?_⟩
  · intro sv hsv htf
    have hsi := item_of_lookup _ _ _ hsv
    simp only [get_specified_pr, gspWithList, hsi]
    rw [if_pos htf]
  · intro ys hf
    refine ⟨?_, ?_, ?_⟩
    · intro hys
      subst hys
      unfold get_specified_pr
      rw [hf, gspWithList_success]
      rfl
    · intro e hne hexn
      unfold get_specified_pr
      rw [hf, gspWithList_success,
        if_neg (fun h => hne (List.isEmpty_iff.mp h))]
      have hps : pySubscript (JVal.arr ys) (n - 1) = pyIndex ys (n - 1) := rfl
      rw [hps, hexn]
    · intro entry numv hret hnum
      have hne : ys ≠ [] := by
        rintro rfl
        rw [pyIndex_nil] at hret
        exact PyResult.noConfusion hret
      unfold get_specified_pr
      rw [hf, gspWithList_success,
        if_neg (fun h => hne (List.isEmpty_iff.mp h))]
      have hps : pySubscript (JVal.arr ys) (n - 1) = pyIndex ys (n - 1) := rfl
      rw [hps, hret]
      simp only [item_of_lookup _ _ _ hnum]
  · intro dat numv d m hsucc hdata hmeth
    simp [gspDetailsStep, item_of_lookup _ _ _ hsucc, item_of_lookup _ _ _ hdata,
      item_of_lookup _ _ _ hmeth, JVal.truthy]
  · intro dat numv sv hsv htf
    simp [gspDetailsStep, item_of_lookup _ _ _ hsv, htf]

/-- Witness for C4: at the zero-open-PR environment the operation
returns the listing result unchanged. -/
theorem c4_index_semantics_witness :
    get_specified_pr envNoOpenPR "octocat" "Hello-World" 1
      = PyResult.ret (fetcherListPullRequests envNoOpenPR "octocat" "Hello-World" "open" 30) :=
  ((c4_index_semantics envNoOpenPR "octocat" "Hello-World" 1).2.1 [] rfl).1 rfl

/-! ## Claim C5 -/

theorem readmeSearch_step_exn (env : Env) (owner repo branch f : String)
    (fs : List String) (e : String)
    (hg : env.doGet (readmeReq owner repo branch f) = HttpOutcome.exn e) :
    readmeSearch env owner repo branch (f :: fs)
      = readmeSearch env owner repo branch fs := by
  simp only [readmeSearch, hg]

theorem readmeSearch_step_200 (env : Env) (owner repo branch f : String)
    (fs : List String) (r : HttpResponse)
    (hg : env.doGet (readmeReq owner repo branch f) = HttpOutcome.resp r)
    (hst : r.status = 200) :
    readmeSearch env owner repo branch (f :: fs) = some r.text := by
  simp [readmeSearch, hg, hst]

theorem readmeSearch_step_not200 (env : Env) (owner repo branch f : String)
    (fs : List String) (r : HttpResponse)
    (hg : env.doGet (readmeReq owner repo branch f) = HttpOutcome.resp r)
    (hst : r.status ≠ 200) :
    readmeSearch env owner repo branch (f :: fs)
      = readmeSearch env owner repo branch fs := by
  simp only [readmeSearch, hg]
  rw [if_neg hst]

theorem readmeCount_step_200 (env : Env) (owner repo branch f : String)
    (fs : List String) (r : HttpResponse)
    (hg : env.doGet (readmeReq owner repo branch f) = HttpOutcome.resp r)
    (hst : r.status = 200) :
    readmeFetchCount env owner repo branch (f :: fs) = 1 := by
  simp [readmeFetchCount, hg, hst]

theorem readmeCount_step_skip (env : Env) (owner repo branch f : String)
    (fs : List String)
    (h : ∀ r, env.doGet (readmeReq owner repo branch f) = HttpOutcome.resp r →
      r.status ≠ 200) :
    readmeFetchCount env owner repo branch (f :: fs)
      = 1 + readmeFetchCount env owner repo branch fs := by
  cases hg : env.doGet (readmeReq owner repo branch f) with
  | exn e => simp [readmeFetchCount, hg]
  | resp r =>
    simp only [readmeFetchCount, hg]
    rw [if_neg (h r hg)]

theorem readmeSearch_first_success (env : Env) (owner repo branch : String)
    (pre : List String) (f : String) (post : List String) (r : HttpResponse)
    (hpre : ∀ g ∈ pre, ∀ r2,
      env.doGet (readmeReq owner repo branch g) = HttpOutcome.resp r2 → r2.status ≠ 200)
    (hf : env.doGet (readmeReq owner repo branch f) = HttpOutcome.resp r)
    (hst : r.status = 200) :
    readmeSearch env owner repo branch (pre ++ f :: post) = some r.text ∧
    readmeFetchCount env owner repo branch (pre ++ f :: post) = pre.length + 1 := by
  induction pre with
  | nil =>
    exact ⟨readmeSearch_step_200 env owner repo branch f post r hf hst,
      readmeCount_step_200 env owner repo branch f post r hf hst⟩
  | cons g gs ih =>
    have hg := hpre g (List.mem_cons_self _ _)
    obtain ⟨ih1, ih2⟩ := ih (fun g2 hg2 => hpre g2 (List.mem_cons_of_mem g hg2))
    constructor
    · rw [List.cons_append]
      cases hgo : env.doGet (readmeReq owner repo branch g) with
      | exn e =>
        rw [readmeSearch_step_exn env owner repo branch g _ e hgo]
        exact ih1
      | resp r2 =>
        rw [readmeSearch_step_not200 env owner repo branch g _ r2 hgo (hg r2 hgo)]
        exact ih1
    · rw [List.cons_append, readmeCount_step_skip env owner repo branch g _ hg, ih2]
      simp only [List.length_cons]
      omega

/-- C5: get_repository_readme tries exactly the filenames README.md,
README.rst, README.txt, README in that order and returns the text of
the first one answering with status 200: for every decomposition of
the filename list into earlier names, a first-success name and later
names, if no earlier name answers 200 (whether it answers a
non-success status or raises, the error is swallowed and the next name
tried) and the first-success name answers 200, its text is returned
and exactly the earlier names plus that one were fetched, the later
names never; in particular a 200 on README.md returns its text after a
single GET; a transport error on README.md is swallowed and README.rst
is tried next; and when no candidate answers with status 200 the
result is absent. -/
theorem c5_readme_first_match (env : Env) (owner repo branch : String) :
    readmeFilenames = ["README.md", "README.rst", "README.txt", "README"] ∧
    (∀ (pre : List String) (f : String) (post : List String) (r : HttpResponse),
      readmeFilenames = pre ++ f :: post →
      (∀ g ∈ pre, ∀ r2,
        env.doGet (readmeReq owner repo branch g) = HttpOutcome.resp r2 →
        r2.status ≠ 200) →
      env.doGet (readmeReq owner repo branch f) = HttpOutcome.resp r →
      r.status = 200 →
      get_repository_readme env owner repo branch = some r.text ∧
      readmeFetchCount env owner repo branch readmeFilenames = pre.length + 1) ∧
    (∀ r, env.doGet (readmeReq owner repo branch "README.md") = HttpOutcome.resp r →
      r.status = 200 →
      get_repository_readme env owner repo branch = some r.text ∧
      readmeFetchCount env owner repo branch readmeFilenames = 1) ∧
    (∀ e r2, env.doGet (readmeReq owner repo branch "README.md") = HttpOutcome.exn e →
      env.doGet (readmeReq owner repo branch "README.rst") = HttpOutcome.resp r2 →
      r2.status = 200 →
      get_repository_readme env owner repo branch = some r2.text) ∧
    ((∀ f ∈ readmeFilenames, ∀ r,
        env.doGet (readmeReq owner repo branch f) = HttpOutcome.resp r → r.status ≠ 200) →
      get_repository_readme env owner repo branch = none) := by
  refine ⟨rfl, ?_, ?_, ?_, ?_⟩
  · intro pre f post r hdecomp hpre hf hst
    obtain ⟨h1, h2⟩ :=
      readmeSearch_first_success env owner repo branch pre f post r hpre hf hst
    constructor
    · unfold get_repository_readme
      rw [hdecomp]
      exact h1
    · rw [hdecomp]
      exact h2
  · intro r hresp hst
    exact ⟨readmeSearch_step_200 env owner repo branch _ _ r hresp hst,
      readmeCount_step_200 env owner repo branch _ _ r hresp hst⟩
  · intro e r2 hmd hrst hst
    unfold get_repository_readme readmeFilenames
    rw [readmeSearch_step_exn env owner repo branch _ _ e hmd]
    exact readmeSearch_step_200 env owner repo branch _ _ r2 hrst hst
  · intro hall
    unfold get_repository_readme
    have step : ∀ (f : String) (fs : List String), f ∈ readmeFilenames →
        readmeSearch env owner repo branch (f :: fs)
          = readmeSearch env owner repo branch fs := by
      intro f fs hf
      cases hg : env.doGet (readmeReq owner repo branch f) with
      | exn e => exact readmeSearch_step_exn env owner repo branch f fs e hg
      | resp r => exact readmeSearch_step_not200 env owner repo branch f fs r hg (hall f hf r hg)
    rw [show readmeFilenames = ["README.md", "README.rst", "README.txt", "README"] from rfl,
      step "README.md" _ (by simp [readmeFilenames]),
      step "README.rst" _ (by simp [readmeFilenames]),
      step "README.txt" _ (by simp [readmeFilenames]),
      step "README" _ (by simp [readmeFilenames])]
    rfl

/-- An environment where the README.md raw URL answers 404, the
README.rst raw URL answers 200, and everything else raises. -/
def envReadme404 : Env :=
  { doGet := fun req =>
      if req = readmeReq "octocat" "Hello-World" "main" "README.md" then
        HttpOutcome.resp
          { status := 404, reason := "Not Found", text := "missing",
            body := PyResult.exn "not json" }
      else if req = readmeReq "octocat" "Hello-World" "main" "README.rst" then
        HttpOutcome.resp
          { status := 200, reason := "OK", text := "rst readme",
            body := PyResult.exn "not json" }
      else
        HttpOutcome.exn "net down",
    certifiAvailable := true,
    b64utf8 := fun _ => PyResult.exn "binascii" }

/-- Witness for C5: README.md answers 404, so its miss is skipped and
the README.rst text is returned after exactly two GET calls. -/
theorem c5_readme_first_match_witness :
    get_repository_readme envReadme404 "octocat" "Hello-World" "main" = some "rst readme" ∧
    readmeFetchCount envReadme404 "octocat" "Hello-World" "main" readmeFilenames = 2 :=
  (c5_readme_first_match envReadme404 "octocat" "Hello-World" "main").2.1
    ["README.md"] "README.rst" ["README.txt", "README"]
    { status := 200, reason := "OK", text := "rst readme", body := PyResult.exn "not json" }
    rfl
    (by
      intro g hg r2 hr2
      simp only [List.mem_singleton] at hg
      subst hg
      have h2 : HttpOutcome.resp
          { status := 404, reason := "Not Found", text := "missing",
            body := PyResult.exn "not json" } = HttpOutcome.resp r2 := hr2
      injection h2 with h3
      subst h3
      decide)
    rfl rfl

/-! ## Claim C6 -/

/-- C6: get_repository_file yields an absent result and never a crash
for a transport exception, a non-200 status, an unparsable body, a
body whose encoding entry is not the base64 string, or a failing
base64/UTF-8 decode; only a 200 response whose body reports base64
encoding and whose content decodes cleanly yields the decoded text. -/
theorem c6_file_fetch_guards (env : Env) (owner repo fp branch : String) :
    (∀ e, env.doGet (fileReq owner repo fp branch) = HttpOutcome.exn e →
      get_repository_file env owner repo fp branch = none) ∧
    (∀ r, env.doGet (fileReq owner repo fp branch) = HttpOutcome.resp r →
      r.status ≠ 200 → get_repository_file env owner repo fp branch = none) ∧
    (∀ r e, env.doGet (fileReq owner repo fp branch) = HttpOutcome.resp r →
      r.status = 200 → r.body = PyResult.exn e →
      get_repository_file env owner repo fp branch = none) ∧
    (∀ r d, env.doGet (fileReq owner repo fp branch) = HttpOutcome.resp r →
      r.status = 200 → r.body = PyResult.ret d →
      isBase64Enc (d.lookup "encoding") = false →
      get_repository_file env owner repo fp branch = none) ∧
    (∀ r d content e, env.doGet (fileReq owner repo fp branch) = HttpOutcome.resp r →
      r.status = 200 → r.body = PyResult.ret d →
      isBase64Enc (d.lookup "encoding") = true → d.lookup "content" = some content →
      env.b64utf8 content = PyResult.exn e →
      get_repository_file env owner repo fp branch = none) ∧
    (∀ r d content t, env.doGet (fileReq owner repo fp branch) = HttpOutcome.resp r →
      r.status = 200 → r.body = PyResult.ret d →
      isBase64Enc (d.lookup "encoding") = true → d.lookup "content" = some content →
      env.b64utf8 content = PyResult.ret t →
      get_repository_file env owner repo fp branch = some t) := by
  refine ⟨?_, ?_, ?_, ?_, ?_, ?_⟩
  · intro e hresp
    simp [get_repository_file, hresp]
  · intro r hresp hst
    simp only [get_repository_file, hresp]
    rw [if_neg hst]
  · intro r e hresp hst hbody
    simp only [get_repository_file, hresp]
    rw [if_pos hst]
    simp [hbody]
  · intro r d hresp hst hbody henc
    simp only [get_repository_file, hresp]
    rw [if_pos hst]
    simp only [hbody]
    cases d with
    | obj kvs =>
      simp only [JVal.lookup] at henc
      simp [dictGet, henc]
    | null => rfl
    | bool b => rfl
    | num x => rfl
    | str s => rfl
    | arr xs => rfl
  · intro r d content e hresp hst hbody henc hcont hdec
    cases d with
    | obj kvs =>
      have hitem := item_of_lookup _ _ _ hcont
      simp only [get_repository_file, hresp]
      rw [if_pos hst]
      simp only [hbody]
      simp only [JVal.lookup] at henc
      simp [dictGet, henc, hitem, hdec]
    | null => simp [JVal.lookup, isBase64Enc] at henc
    | bool b => simp [JVal.lookup, isBase64Enc] at henc
    | num x => simp [JVal.lookup, isBase64Enc] at henc
    | str s => simp [JVal.lookup, isBase64Enc] at henc
    | arr xs => simp [JVal.lookup, isBase64Enc] at henc
  · intro r d content t hresp hst hbody henc hcont hdec
    cases d with
    | obj kvs =>
      have hitem := item_of_lookup _ _ _ hcont
      simp only [get_repository_file, hresp]
      rw [if_pos hst]
      simp only [hbody]
      simp only [JVal.lookup] at henc
      simp [dictGet, henc, hitem, hdec]
    | null => simp [JVal.lookup, isBase64Enc] at henc
    | bool b => simp [JVal.lookup, isBase64Enc] at henc
    | num x => simp [JVal.lookup, isBase64Enc] at henc
    | str s => simp [JVal.lookup, isBase64Enc] at henc
    | arr xs => simp [JVal.lookup, isBase64Enc] at henc

/-- An environment whose contents endpoint answers 200 with a body
reporting a non-base64 encoding. -/
def envFileNonB64 : Env :=
  { doGet := fun _ => HttpOutcome.resp
      { status := 200, reason := "OK", text := "",
        body := PyResult.ret (JVal.obj
          [("encoding", JVal.str "utf-8"), ("content", JVal.str "x")]) },
    certifiAvailable := true,
    b64utf8 := fun _ => PyResult.exn "binascii" }

/-- Witness for C6: a 200 response reporting utf-8 encoding yields an
absent result. -/
theorem c6_file_fetch_guards_witness :
    get_repository_file envFileNonB64 "octocat" "Hello-World" "src/app.py" "main" = none :=
  (c6_file_fetch_guards envFileNonB64 "octocat" "Hello-World" "src/app.py" "main").2.2.2.1
    { status := 200, reason := "OK", text := "",
      body := PyResult.ret (JVal.obj [("encoding", JVal.str "utf-8"), ("content", JVal.str "x")]) }
    (JVal.obj [("encoding", JVal.str "utf-8"), ("content", JVal.str "x")])
    rfl rfl rfl rfl

/-! ## Claim C7 -/

/-- C7 counterexample: the claim says the tool-level list_pull_requests
passes a 10-second timeout to its single GET call; in the source the
call is a bare httpx.get(url), so no timeout argument is passed at the
call site at all. -/
theorem c7_counterexample :
    (mainListPRsReq "octocat" "Hello-World").timeout = none ∧
    (mainListPRsReq "octocat" "Hello-World").timeout ≠ some 10 :=
  ⟨rfl, by simp [mainListPRsReq]⟩

/-- C7 (amended): every one of the four transport strategies passes a
30-second timeout to its GET call, and so does the fetcher-level
listing call; get_repository_issues, get_repository_readme and
get_repository_file pass a 10-second timeout to their single GET call;
the tool-level list_pull_requests passes no timeout argument to its
GET call. -/
theorem c7_timeouts (url owner repo state fp branch filename : String) (perPage : Int) :
    (defaultSslReq url).timeout = some 30 ∧
    (disabledSslReq url).timeout = some 30 ∧
    (customSslContextReq url).timeout = some 30 ∧
    (systemCaBundleReq url).timeout = some 30 ∧
    (listPRsReq owner repo state perPage).timeout = some 30 ∧
    (issuesReq owner repo state perPage).timeout = some 10 ∧
    (readmeReq owner repo branch filename).timeout = some 10 ∧
    (fileReq owner repo fp branch).timeout = some 10 ∧
    (mainListPRsReq owner repo).timeout = none :=
  ⟨rfl, rfl, rfl, rfl, rfl, rfl, rfl, rfl, rfl⟩

/-! ## Claim C8 -/

/-- C8: the tool-level list_pull_requests is a pure function of the
remote response to its one listing request: two calls with identical
inputs during which the remote answers that request identically yield
identical results, in particular identical ordered summary lists. -/
theorem c8_idempotent (env1 env2 : Env) (owner repo : String)
    (h : env1.doGet (mainListPRsReq owner repo) = env2.doGet (mainListPRsReq owner repo)) :
    list_pull_requests env1 repo owner = list_pull_requests env2 repo owner := by
  unfold list_pull_requests list_pull_requests_value
  rw [h]

/-- A second environment that answers the tool-level listing request
exactly as envNoOpenPR does but behaves differently elsewhere. -/
def envNoOpenPRAlt : Env :=
  { doGet := fun req =>
      if req.timeout = none then envNoOpenPR.doGet req else HttpOutcome.exn "different",
    certifiAvailable := false,
    b64utf8 := fun _ => PyResult.ret "other" }

/-- Witness for C8: the two environments agree on the listing request,
so the two calls return the same string. -/
theorem c8_idempotent_witness :
    list_pull_requests envNoOpenPR "Hello-World" "octocat"
      = list_pull_requests envNoOpenPRAlt "Hello-World" "octocat" :=
  c8_idempotent envNoOpenPR envNoOpenPRAlt "octocat" "Hello-World" rfl

/-! ## Claim C9 -/

/-- C9: for every successful listing response whose body is an array of
pull-request objects carrying the read fields, the tool-level
list_pull_requests builds, in the same order, exactly the five-field
summaries number, title, state, author, url (specProjectPR5 restates
that projection from the specification); and for a repository with
zero open PRs the serialized result is the empty JSON array, not an
error. -/
theorem c9_list_projection (env : Env) (owner repo : String) (r : HttpResponse)
    (prs : List JVal)
    (hresp : env.doGet (mainListPRsReq owner repo) = HttpOutcome.resp r)
    (hst : 200 ≤ r.status ∧ r.status < 300)
    (hbody : r.body = PyResult.ret (JVal.arr prs))
    (hwf : ∀ pr ∈ prs, hasPRFields pr) :
    list_pull_requests_value env repo owner
      = PyResult.ret (JVal.arr (prs.map specProjectPR5)) ∧
    (prs = [] → list_pull_requests env repo owner = "[]") := by
  have hv : list_pull_requests_value env repo owner
      = PyResult.ret (JVal.arr (prs.map specProjectPR5)) := by
    simp only [list_pull_requests_value, hresp]
    rw [if_pos hst]
    simp only [hbody, toIter,
      pyMapM_map project5 specProjectPR5 prs (fun pr hpr => project5_spec pr (hwf pr hpr))]
  refine ⟨hv, ?_⟩
  intro hempty
  subst hempty
  simp only [list_pull_requests, hv, List.map]
  rfl

/-- Witness for C9: a repository with zero open PRs yields the empty
array and the empty serialized result. -/
theorem c9_list_projection_witness :
    list_pull_requests_value envNoOpenPR "Hello-World" "octocat"
      = PyResult.ret (JVal.arr (List.map specProjectPR5 [])) ∧
    (([] : List JVal) = [] → list_pull_requests envNoOpenPR "Hello-World" "octocat" = "[]") :=
  c9_list_projection envNoOpenPR "octocat" "Hello-World"
    { status := 200, reason := "OK", text := "", body := PyResult.ret (JVal.arr []) }
    [] rfl (by decide) rfl (fun pr hpr => absurd hpr (List.not_mem_nil pr))

/-! ## Claim C10 -/

/-- C10: with the declared default pr_number = 0 and a successful
non-empty listing, get_specified_pr does not fail with an index error:
the computed index 0 - 1 = -1 wraps around to the last entry of the
listing, the PR whose details are fetched is that entry's number, and
the operation returns a value. -/
theorem c10_default_zero_last_entry (env : Env) (owner repo : String)
    (l : List JVal) (entry numv : JVal)
    (hf : fetcherListPullRequests env owner repo "open" 30
      = JVal.obj [("success", JVal.bool true), ("data", JVal.arr l)])
    (hlast : l.getLast? = some entry)
    (hnum : entry.lookup "number" = some numv) :
    pyIndex l (0 - 1) = PyResult.ret entry ∧
    get_specified_pr env owner repo 0
      = gspDetailsStep env owner repo (JVal.arr l) numv ∧
    ∃ v, get_specified_pr env owner repo 0 = PyResult.ret v := by
  have hne : l ≠ [] := by
    rintro rfl
    simp at hlast
  have hlen : 0 < l.length := List.length_pos.mpr hne
  have hidx : pyIndex l (0 - 1) = PyResult.ret entry := by
    simp only [pyIndex]
    rw [if_pos (show (0 : Int) ≤ if (0 - 1 : Int) < 0 then (0 - 1 : Int) + l.length
        else (0 - 1 : Int) by rw [if_pos (by norm_num)]; omega)]
    have htn : ((if (0 - 1 : Int) < 0 then (0 - 1 : Int) + l.length
        else (0 - 1 : Int)).toNat) = l.length - 1 := by
      rw [if_pos (by norm_num)]
      omega
    rw [htn]
    rw [show l.get? (l.length - 1) = l.getLast? from by
      rw [List.get?_eq_getElem?, List.getLast?_eq_getElem?]]
    rw [hlast]
  refine ⟨hidx, ?_, ?_⟩
  · unfold get_specified_pr
    rw [hf, gspWithList_success,
      if_neg (fun h => hne (List.isEmpty_iff.mp h))]
    have hps : pySubscript (JVal.arr l) (0 - 1) = pyIndex l (0 - 1) := rfl
    rw [hps, hidx]
    simp only [item_of_lookup _ _ _ hnum]
  · unfold get_specified_pr
    rw [hf, gspWithList_success,
      if_neg (fun h => hne (List.isEmpty_iff.mp h))]
    have hps : pySubscript (JVal.arr l) (0 - 1) = pyIndex l (0 - 1) := rfl
    rw [hps, hidx]
    simp only [item_of_lookup _ _ _ hnum]
    exact gspDetailsStep_ret env owner repo (JVal.arr l) numv

/-- The summary dictionary the fetcher projection builds from prObj1. -/
def entry1 : JVal :=
  JVal.obj [("number", JVal.num 101), ("title", JVal.str "t"), ("state", JVal.str "open"),
            ("author", JVal.str "alice"), ("url", JVal.str "u"),
            ("created_at", JVal.str "c"), ("updated_at", JVal.str "d")]

/-- Witness for C10: in the one-open-PR environment, pr_number = 0
selects the single (hence last) entry, number 101, and the operation
returns a value. -/
theorem c10_default_zero_last_entry_witness :
    pyIndex [entry1] (0 - 1) = PyResult.ret entry1 ∧
    get_specified_pr envOneOpenPR "octocat" "Hello-World" 0
      = gspDetailsStep envOneOpenPR "octocat" "Hello-World" (JVal.arr [entry1]) (JVal.num 101) ∧
    ∃ v, get_specified_pr envOneOpenPR "octocat" "Hello-World" 0 = PyResult.ret v :=
  c10_default_zero_last_entry envOneOpenPR "octocat" "Hello-World" [entry1] entry1
    (JVal.num 101) rfl rfl rfl
